import Mathlib

/-!
Shallow embedding of the Excel-val validation scripts (App.py, Flask.py,
Flask2.py, app1.py) and proofs about their validation rules.

Modelling conventions:
* A loaded pandas DataFrame (read with `dtype=str`) is a `Table`: an ordered
  list of column names and rows of cells; a cell is `Option String`, `none`
  standing for pandas `NaN` (an absent/blank spreadsheet cell).
* `str(x)` applied to a cell renders `NaN` as the string `"nan"` (`pyStr`).
* Regex character classes are embedded over ASCII code points; the `$` anchor
  is modelled as end-of-string.  Python `re`'s Unicode digit classes and the
  match-before-trailing-newline quirk of `$` are outside the embedding.
* Pandas elementwise `==` never equates `NaN` with anything (`cellEqPd`),
  while `duplicated`/`isin`/`count` treat `NaN` values as equal to each other
  (plain decidable equality on `Option String`).
-/

namespace ExcelVal

/-- A parsed tabular dataset: ordered column names and rows of optional
string cells, each row aligned positionally with `columns`. -/
structure Table where
  columns : List String
  rows : List (List (Option String))
deriving DecidableEq, Repr

/-- Index of the first column named `c` (pandas label lookup). -/
def colIdx (cols : List String) (c : String) : Option Nat :=
  match cols with
  | [] => none
  | x :: xs => if x = c then some 0 else (colIdx xs c).map (· + 1)

/-- The cell of row `i` in column `c`; `none` when the row or column is
missing or the stored value is `NaN`. -/
def Table.cell (t : Table) (i : Nat) (c : String) : Option String :=
  match colIdx t.columns c, t.rows.get? i with
  | some j, some r => (r.get? j).getD none
  | _, _ => none

/-- Python `str(x)` on a cell: `NaN` renders as `"nan"`. -/
def pyStr (v : Option String) : String :=
  match v with
  | some s => s
  | none => "nan"

/-- An exception escaping a validation run:
* `valueError cols` — App.py line 23's raise, naming the missing columns;
* `typeError` — unary `~` applied to an object mask containing `NaN`
  (`str.isdigit`/`str.match` leave `NaN` in the mask, and inverting it
  raises `TypeError: bad operand type for unary ~`);
* `keyError col` — a `df[col]` lookup on a table without that column. -/
inductive PyError where
  | valueError (cols : List String)
  | typeError
  | keyError (col : String)
deriving DecidableEq, Repr

deriving instance DecidableEq for Except

/-- ASCII decimal digit, the `[0-9]` character class. -/
def asciiDigit (c : Char) : Bool :=
  48 ≤ c.toNat && c.toNat ≤ 57

/-- Python `str.isdigit` (restricted to ASCII digits): nonempty and all
characters are digits. -/
def pyIsDigit (s : String) : Bool :=
  !s.isEmpty && s.data.all asciiDigit

-- `Series.str.isdigit` itself is embedded only on present cells
-- (`pyIsDigit`): a `NaN` cell leaves `NaN` in the mask, and inverting that
-- mask raises `TypeError` instead of flagging the row — each validator
-- models that path as a `PyError.typeError` result.

/-- The extraction `re.findall(r'[^\x00-\x7F]', s)` joined: the subsequence of characters
with code point above 0x7F. -/
def findNonEnglish (s : String) : String :=
  ⟨s.data.filter (fun c => 127 < c.toNat)⟩

/-- Pandas elementwise `==` on cells: `NaN` compares unequal to everything,
including another `NaN`. -/
def cellEqPd (a b : Option String) : Bool :=
  match a, b with
  | some x, some y => x = y
  | _, _ => false

/-- Deduplication worker: keep each element's first occurrence, skipping
elements already seen. -/
def uniqueAux {α : Type} [DecidableEq α] : List α → List α → List α
  | [], _ => []
  | x :: xs, seen =>
    if x ∈ seen then uniqueAux xs seen else x :: uniqueAux xs (x :: seen)

/-- First-occurrence-order deduplication, as `Series.unique()`. -/
def uniqueFirst {α : Type} [DecidableEq α] (l : List α) : List α :=
  uniqueAux l []

/-! ## Flask2.py `validate_file` (rules on the loaded table) -/

/-- The column name Flask2.py exempts from the blank-cells trigger. -/
def flask2ExemptCol : String := "Other Title Name(s)"

/-- A `blank_cells` entry: human-facing row number and a list of column
names. -/
structure BlankViol where
  row : Nat
  columns : List String
deriving DecidableEq, Repr

/-- Flask2.py Rule 1: a row triggers when some column other than
`"Other Title Name(s)"` is null; the attached column list is all of the
row's null columns (`df.columns[df.loc[row].isnull()]`), exemption not
applied there. -/
def flask2BlankCells (t : Table) : List BlankViol :=
  (List.range t.rows.length).filterMap (fun i =>
    if (t.columns.filter (fun c => c ≠ flask2ExemptCol)).any
        (fun c => (t.cell i c).isNone) then
      some ⟨i + 2, t.columns.filter (fun c => (t.cell i c).isNone)⟩
    else none)

/-- A Flask2 `non_english_characters` entry. -/
structure NonEnglishViol2 where
  row : Nat
  column : String
  invalid_chars : String
deriving DecidableEq, Repr

/-- Flask2.py Rule 2: for every present cell, extract the characters outside
`\x00`–`\x7F`; a nonempty extraction yields one entry per (row, column). -/
def flask2NonEnglish (t : Table) : List NonEnglishViol2 :=
  (List.range t.rows.length).flatMap (fun i =>
    t.columns.filterMap (fun c =>
      match t.cell i c with
      | none => none
      | some s =>
        let bad := findNonEnglish s
        if bad.isEmpty then none else some ⟨i + 2, c, bad⟩))

/-- A `duplicate_gti` entry: the shared identifier value and the
human-facing row numbers carrying it. -/
structure DupViol where
  gti : Option String
  rows : List Nat
deriving DecidableEq, Repr

/-- The GTI column as a list of cells, one per row. -/
def gtiValues (t : Table) : List (Option String) :=
  (List.range t.rows.length).map (fun i => t.cell i "GTI")

/-- The values `df[df.duplicated('GTI', keep=False)]['GTI'].unique()`: values (including
`NaN`, which pandas `duplicated` treats as equal to itself) occurring in two
or more rows, in first-occurrence order. -/
def dupGtiValues (t : Table) : List (Option String) :=
  uniqueFirst ((gtiValues t).filter (fun v => 2 ≤ (gtiValues t).count v))

/-- The list `df.index[df['GTI'] == gti]`: row indices whose GTI cell compares equal
to `v` under pandas elementwise `==` (so a `NaN` value matches no row). -/
def gtiRowsEq (t : Table) (v : Option String) : List Nat :=
  (List.range t.rows.length).filter (fun i => cellEqPd (t.cell i "GTI") v)

/-- Flask2.py Rule 3: one cluster per duplicated GTI value, carrying the
value and the offset-adjusted rows whose GTI equals it. -/
def flask2DupGti (t : Table) : List DupViol :=
  if t.columns.contains "GTI" then
    (dupGtiValues t).map (fun v => ⟨v, (gtiRowsEq t v).map (· + 2)⟩)
  else []

/-- An `invalid_country_language` entry with the raw cell values. -/
structure CLViol where
  row : Nat
  countries : Option String
  languages : Option String
deriving DecidableEq, Repr

/-- Flask2.py Rule 4 crashes (line 66): when both columns exist and some
Countries or Languages cell is `NaN`, the `str.isdigit` mask contains `NaN`
and inverting it raises `TypeError`, so the run returns no report. -/
def flask2Rule4Crash (t : Table) : Bool :=
  t.columns.contains "Countries" && t.columns.contains "Languages" &&
  (List.range t.rows.length).any (fun i =>
    (t.cell i "Countries").isNone || (t.cell i "Languages").isNone)

/-- Flask2.py Rule 4 on the non-crash path, where every Countries and
Languages cell is present: a row is flagged when either cell is not a
nonempty digit string.  The `| _, _ => none` branch is unreachable under
the `flask2Rule4Crash` guard (an absent cell raises `TypeError` instead). -/
def flask2CountryLang (t : Table) : List CLViol :=
  if t.columns.contains "Countries" && t.columns.contains "Languages" then
    (List.range t.rows.length).filterMap (fun i =>
      match t.cell i "Countries", t.cell i "Languages" with
      | some c, some l =>
        if pyIsDigit c && pyIsDigit l then none
        else some ⟨i + 2, some c, some l⟩
      | _, _ => none)
  else []

/-- The closed set of valid Age Rating IDs, as text. -/
def validAgeRatings : List String := ["2", "9", "154", "147"]

/-- The check `Series.isin(valid_age_ratings)` on one cell (`NaN` is in no set). -/
def ageIsin (v : Option String) : Bool :=
  match v with
  | some s => validAgeRatings.contains s
  | none => false

/-- An `invalid_age_rating` entry with the raw cell value. -/
structure AgeViol where
  row : Nat
  value : Option String
deriving DecidableEq, Repr

/-- Flask2.py Rule 5: rows whose Age Rating ID is not in the valid set. -/
def flask2AgeRating (t : Table) : List AgeViol :=
  if t.columns.contains "Age Rating ID" then
    (List.range t.rows.length).filterMap (fun i =>
      if ageIsin (t.cell i "Age Rating ID") then none
      else some ⟨i + 2, t.cell i "Age Rating ID"⟩)
  else []

/-- The match `re.match(r'^\d{2}/\d{2}/\d{4}$', s)` on the character list: two
digits, slash, two digits, slash, four digits — no range restriction on
month or day (code 47 is `/`). -/
def laxDateChars : List Char → Bool
  | [a, b, c, d, e, f, g, h, i, j] =>
    asciiDigit a && asciiDigit b && c.toNat = 47 &&
    asciiDigit d && asciiDigit e && f.toNat = 47 &&
    asciiDigit g && asciiDigit h && asciiDigit i && asciiDigit j
  | _ => false

/-- The match `re.match(r'^\d{2}/\d{2}/\d{4}$', s)` on a string. -/
def laxDateMatch (s : String) : Bool :=
  laxDateChars s.data

/-- An `invalid_date_format` entry with the raw cell value. -/
structure DateViol where
  row : Nat
  value : Option String
deriving DecidableEq, Repr

/-- Flask2.py Rule 6: `df['Rating Date'].astype(str)` renders `NaN` as
`"nan"`, then the lax `\d{2}/\d{2}/\d{4}` pattern is required. -/
def flask2DateFormat (t : Table) : List DateViol :=
  if t.columns.contains "Rating Date" then
    (List.range t.rows.length).filterMap (fun i =>
      if laxDateMatch (pyStr (t.cell i "Rating Date")) then none
      else some ⟨i + 2, t.cell i "Rating Date"⟩)
  else []

/-- One entry of Flask2.py's `validation_results["errors"]` mapping. -/
inductive F2Viol where
  | blank (v : BlankViol)
  | nonEnglish (v : NonEnglishViol2)
  | dup (v : DupViol)
  | countryLang (v : CLViol)
  | age (v : AgeViol)
  | date (v : DateViol)
deriving DecidableEq, Repr

/-- The `"errors"` dictionary Flask2.py returns on the non-crash path,
keyed exactly as initialised at lines 21–30 and filled by Rules 1–6. -/
def flask2ReportEntries (t : Table) : List (String × List F2Viol) :=
  [("blank_cells", (flask2BlankCells t).map .blank),
   ("non_english_characters", (flask2NonEnglish t).map .nonEnglish),
   ("duplicate_gti", (flask2DupGti t).map .dup),
   ("invalid_country_language", (flask2CountryLang t).map .countryLang),
   ("invalid_age_rating", (flask2AgeRating t).map .age),
   ("invalid_date_format", (flask2DateFormat t).map .date)]

/-- Flask2.py `validate_file` on a loaded table: Rule 4's mask inversion
raises `TypeError` when a Countries/Languages cell is `NaN` (no report is
returned); otherwise the filled `"errors"` dictionary is returned.  Rules
1–3, 5 and 6 cannot raise: `isnull`, `applymap`, `duplicated`, `isin` and
the `astype(str)`-then-`match` chain all yield `NaN`-free masks. -/
def flask2_validate_file (t : Table) :
    Except PyError (List (String × List F2Viol)) :=
  if flask2Rule4Crash t then .error .typeError
  else .ok (flask2ReportEntries t)

/-! ## Flask.py `validate_file`, Rule 2 (non-English characters) -/

/-- A Flask.py `non_english_chars` entry, carrying the offending value. -/
structure NEViol where
  row : Nat
  column : String
  value : String
  invalid_chars : String
deriving DecidableEq, Repr

/-- The per-cell mask of Flask.py Rule 2: extracted non-ASCII characters for
a present cell, `""` for `NaN`. -/
def neMask (t : Table) (i : Nat) (c : String) : String :=
  match t.cell i c with
  | some s => findNonEnglish s
  | none => ""

/-- Flask.py Rule 2: rows where some column's extraction is nonempty; for
each such row and each offending column, one entry with the row number,
column, `str` of the cell, and the extracted characters. -/
def flask_non_english (t : Table) : List NEViol :=
  ((List.range t.rows.length).filter
      (fun i => t.columns.any (fun c => !(neMask t i c).isEmpty))).flatMap
    (fun i =>
      (t.columns.filter (fun c => !(neMask t i c).isEmpty)).map
        (fun c => ⟨i + 2, c, pyStr (t.cell i c), neMask t i c⟩))

/-! ## app1.py `validate_file` -/

/-- An `invalid_country_language` entry of app1.py, carrying `str` of both
raw cells (so `NaN` appears as `"nan"`). -/
structure CLViolS where
  row : Nat
  countries : String
  languages : String
deriving DecidableEq, Repr

/-- app1.py Rule 4 on the non-crash path, where every Countries and
Languages cell is present: flagged when not both are nonempty digit
strings; the entry carries `str` of both raw values (identity on present
strings).  The `| _, _ => none` branch is unreachable in
`app1_validate_file`, which returns `TypeError` for a `NaN`-bearing mask
(line 51) before any entry is built. -/
def app1CountryLang (t : Table) : List CLViolS :=
  (List.range t.rows.length).filterMap (fun i =>
    match t.cell i "Countries", t.cell i "Languages" with
    | some c, some l =>
      if pyIsDigit c && pyIsDigit l then none else some ⟨i + 2, c, l⟩
    | _, _ => none)

/-- The character class of app1.py Rule 2, `[A-Za-z0-9\s.,!?;:'"-]`:
letters, digits, whitespace, and `. , ! ? ; : ' " -`
(codes 46 44 33 63 59 58 39 34 45). -/
def app1AllowedChar (c : Char) : Bool :=
  let n := c.toNat
  (65 ≤ n && n ≤ 90) || (97 ≤ n && n ≤ 122) || (48 ≤ n && n ≤ 57) ||
  n = 32 || n = 9 || n = 10 || n = 13 || n = 11 || n = 12 ||
  n = 46 || n = 44 || n = 33 || n = 63 || n = 59 || n = 58 ||
  n = 39 || n = 34 || n = 45

/-- An app1.py `non_english_chars` entry (no extracted-characters field). -/
structure NEViolS where
  row : Nat
  column : String
  value : String
deriving DecidableEq, Repr

/-- app1.py Rule 2 per-cell mask: `True` (passes) for `NaN`, otherwise a
full match of `^[A-Za-z0-9\s.,!?;:'"-]*$`. -/
def app1NeOk (v : Option String) : Bool :=
  match v with
  | none => true
  | some s => s.data.all app1AllowedChar

/-- app1.py Rule 2: rows where some cell fails the allow-list; one entry per
offending (row, column) with `str` of the cell. -/
def app1NonEnglish (t : Table) : List NEViolS :=
  ((List.range t.rows.length).filter
      (fun i => !t.columns.all (fun c => app1NeOk (t.cell i c)))).flatMap
    (fun i =>
      (t.columns.filter (fun c => !app1NeOk (t.cell i c))).map
        (fun c => ⟨i + 2, c, pyStr (t.cell i c)⟩))

/-- An app1.py `duplicate_gtis` entry (`str` of the shared value). -/
structure DupViolS where
  gti : String
  rows : List Nat
deriving DecidableEq, Repr

/-- app1.py Rule 3: same clustering as Flask2.py, the value rendered with
`str`.  app1.py has no `GTI in df.columns` guard: line 44's
`df.duplicated('GTI')` raises `KeyError` when the column is absent, so
`app1_validate_file` only evaluates this after that lookup succeeded. -/
def app1DupGti (t : Table) : List DupViolS :=
  (dupGtiValues t).map (fun v => ⟨pyStr v, (gtiRowsEq t v).map (· + 2)⟩)

/-- An app1.py `invalid_age_rating` entry (`str` of the raw value). -/
structure AgeViolS where
  row : Nat
  value : String
deriving DecidableEq, Repr

/-- app1.py Rule 5: rows whose Age Rating ID is not in the valid set. -/
def app1AgeRating (t : Table) : List AgeViolS :=
  (List.range t.rows.length).filterMap (fun i =>
    if ageIsin (t.cell i "Age Rating ID") then none
    else some ⟨i + 2, pyStr (t.cell i "Age Rating ID")⟩)

/-- An app1.py `blank_cells` entry. -/
structure BlankViolG where
  row : Nat
  columns : List String
deriving DecidableEq, Repr

/-- app1.py Rule 1: rows with any null cell; the attached column list is
`df.columns[df.isnull().any()]` — the columns null in *any* row of the whole
table, not the row's own. -/
def app1BlankCells (t : Table) : List BlankViolG :=
  ((List.range t.rows.length).filter
      (fun i => t.columns.any (fun c => (t.cell i c).isNone))).map
    (fun i =>
      ⟨i + 2, t.columns.filter
        (fun c => (List.range t.rows.length).any (fun j => (t.cell j c).isNone))⟩)

/-- An app1.py `invalid_date_format` entry (`str` of the stored value, which
after line 65 is already a string). -/
structure DateViolS where
  row : Nat
  value : String
deriving DecidableEq, Repr

/-- app1.py line 65, `df['Rating Date'] = df['Rating Date'].astype(str)`:
overwrite every Rating Date cell with its `str` rendering (`NaN` becomes the
present string `"nan"`).  The `none` branch is unreachable from
`app1_validate_file`, which returns line 65's `KeyError` before this runs
when the column is absent. -/
def astypeStrRatingDate (t : Table) : Table :=
  match colIdx t.columns "Rating Date" with
  | none => t
  | some j =>
    { t with rows := t.rows.map (fun r => r.set j (some (pyStr ((r.get? j).getD none)))) }

/-- app1.py Rule 6, evaluated on the table after line 65's overwrite. -/
def app1DateFormat (t : Table) : List DateViolS :=
  (List.range t.rows.length).filterMap (fun i =>
    if laxDateMatch (pyStr (t.cell i "Rating Date")) then none
    else some ⟨i + 2, pyStr (t.cell i "Rating Date")⟩)

/-- The `validation_results` dictionary of app1.py. -/
structure App1Report where
  blank_cells : List BlankViolG
  non_english_chars : List NEViolS
  duplicate_gtis : List DupViolS
  invalid_country_language : List CLViolS
  invalid_age_rating : List AgeViolS
  invalid_date_format : List DateViolS
deriving DecidableEq, Repr

/-- The first exception an app1.py run hits, in source order: line 44's
`df.duplicated('GTI')` (`KeyError`), line 51's `df['Countries']` then
`df['Languages']` lookups (`KeyError`) and the `NaN`-bearing inverted
`isdigit` mask (`TypeError`), line 58's `df['Age Rating ID']` lookup
(`KeyError`), and line 65's `df['Rating Date']` lookup (`KeyError`).
Rules 1 and 2 (lines 29–41) cannot raise. -/
def app1Abort (t : Table) : Option PyError :=
  if !t.columns.contains "GTI" then some (.keyError "GTI")
  else if !t.columns.contains "Countries" then some (.keyError "Countries")
  else if !t.columns.contains "Languages" then some (.keyError "Languages")
  else if (List.range t.rows.length).any (fun i =>
      (t.cell i "Countries").isNone || (t.cell i "Languages").isNone) then
    some .typeError
  else if !t.columns.contains "Age Rating ID" then
    some (.keyError "Age Rating ID")
  else if !t.columns.contains "Rating Date" then
    some (.keyError "Rating Date")
  else none

/-- app1.py `validate_file` on a loaded table, with the table state made
explicit: when a rule raises (`app1Abort`), the run escapes with that
exception and the table — not yet touched by line 65 — is unchanged;
otherwise Rules 1–5 read the input table, line 65 overwrites the Rating
Date column in place, Rule 6 reads the overwritten table, and the final
table state is returned alongside the report. -/
def app1_validate_file (t : Table) : Table × Except PyError App1Report :=
  match app1Abort t with
  | some e => (t, .error e)
  | none =>
    let t2 := astypeStrRatingDate t
    (t2, .ok
     { blank_cells := app1BlankCells t
       non_english_chars := app1NonEnglish t
       duplicate_gtis := app1DupGti t
       invalid_country_language := app1CountryLang t
       invalid_age_rating := app1AgeRating t
       invalid_date_format := app1DateFormat t2 })

/-! ## App.py `validate_excel` -/

/-- The required-column list of App.py lines 11–18. -/
def required_columns : List String :=
  ["GTI", "Entity", "Title Name", "Other title names", "Duration",
   "Producers", "Directors", "Production Company Name", "Year of Production",
   "Countries", "Languages", "Is Version Original", "Age Rating ID",
   "Content Descriptors", "Violence Impact", "Drug Use Impact",
   "Themes Impact", "Language Impact", "Nudity Impact", "Sex Impact",
   "ACB Rated", "Different Version Production Exists", "Rating Date"]

/-- The test `df.isna() | (df == "")` on one cell: `NaN` or the empty string. -/
def cellBlank (v : Option String) : Bool :=
  match v with
  | none => true
  | some s => s = ""

/-- App.py's `missing_values` flag: some required column other than
"Other title names" is `NaN` or empty in the row. -/
def appMissingValues (t : Table) (i : Nat) : Bool :=
  (required_columns.filter (fun c => c ≠ "Other title names")).any
    (fun c => cellBlank (t.cell i c))

/-- App.py's `GTI_Duplicate` flag: the row's GTI is in the list of GTI
values of rows marked by `duplicated(keep=False)`; pandas `isin` matches
`NaN` against a `NaN` in the list. -/
def appDupFlag (t : Table) (i : Nat) : Bool :=
  ((gtiValues t).filter (fun v => 2 ≤ (gtiValues t).count v)).contains
    (t.cell i "GTI")

/-- The character class of App.py's `english_regex`, `[a-zA-Z0-9\s.,&()'"-]`:
letters, digits, whitespace, and `. , & ( ) ' " -`
(codes 46 44 38 40 41 39 34 45). -/
def appAllowedChar (c : Char) : Bool :=
  let n := c.toNat
  (65 ≤ n && n ≤ 90) || (97 ≤ n && n ≤ 122) || (48 ≤ n && n ≤ 57) ||
  n = 32 || n = 9 || n = 10 || n = 13 || n = 11 || n = 12 ||
  n = 46 || n = 44 || n = 38 || n = 40 || n = 41 ||
  n = 39 || n = 34 || n = 45

/-- The free-text columns App.py's non-English check inspects. -/
def appTextColumns : List String :=
  ["Title Name", "Producers", "Directors", "Production Company Name"]

/-- App.py's `Non_English_Found` flag: some text column's cell fails the
full match of the allow-list (a `NaN` cell is not flagged, since
`str.match` of `NaN` compares unequal to `False`). -/
def appNonEnglishFlag (t : Table) (i : Nat) : Bool :=
  appTextColumns.any (fun c =>
    match t.cell i c with
    | some s => !(s.data.all appAllowedChar)
    | none => false)

/-- App.py's `Invalid_Country_Language` flag on the non-crash path, where
both cells are present.  The `| _, _ => false` branch is unreachable in
`validate_excel`: a `NaN` cell makes line 40's inverted `isdigit` mask
raise `TypeError` (modelled by `appMaskCrash`). -/
def appCLFlag (t : Table) (i : Nat) : Bool :=
  match t.cell i "Countries", t.cell i "Languages" with
  | some c, some l => !(pyIsDigit c && pyIsDigit l)
  | _, _ => false

/-- App.py's `Invalid_Age_Rating` flag: not in the valid set (`NaN` is in no
set, so a blank cell is flagged). -/
def appAgeFlag (t : Table) (i : Nat) : Bool :=
  !ageIsin (t.cell i "Age Rating ID")

/-- The alternative `0[1-9]|1[0-2]` on the two month characters (codes: 48 is `0`, 49 is
`1`, 50 is `2`, 57 is `9`). -/
def monthPat (m1 m2 : Char) : Bool :=
  (m1.toNat = 48 && 49 ≤ m2.toNat && m2.toNat ≤ 57) ||
  (m1.toNat = 49 && 48 ≤ m2.toNat && m2.toNat ≤ 50)

/-- The alternative `0[1-9]|[12][0-9]|3[01]` on the two day characters (code 51 is `3`). -/
def dayPat (d1 d2 : Char) : Bool :=
  (d1.toNat = 48 && 49 ≤ d2.toNat && d2.toNat ≤ 57) ||
  ((d1.toNat = 49 || d1.toNat = 50) && asciiDigit d2) ||
  (d1.toNat = 51 && (d2.toNat = 48 || d2.toNat = 49))

/-- App.py's `date_regex` on the character list,
`^(0[1-9]|1[0-2])/(0[1-9]|[12][0-9]|3[01])/\d{4}$` (code 47 is `/`). -/
def strictDateChars : List Char → Bool
  | [m1, m2, s1, d1, d2, s2, y1, y2, y3, y4] =>
    monthPat m1 m2 && s1.toNat = 47 && dayPat d1 d2 && s2.toNat = 47 &&
    asciiDigit y1 && asciiDigit y2 && asciiDigit y3 && asciiDigit y4
  | _ => false

/-- App.py's `date_regex` match on a string. -/
def dateOkStrict (s : String) : Bool :=
  strictDateChars s.data

/-- App.py's `Invalid_Date_Format` flag on the non-crash path, where the
cell is present: the cell fails the strict pattern.  The `none` branch is
unreachable in `validate_excel`: a `NaN` cell makes line 48's inverted
`str.match` mask raise `TypeError` (modelled by `appMaskCrash`). -/
def appDateFlag (v : Option String) : Bool :=
  match v with
  | some s => !dateOkStrict s
  | none => false

/-- The six impact columns of App.py line 51. -/
def impactColumns : List String :=
  ["Violence Impact", "Drug Use Impact", "Themes Impact",
   "Language Impact", "Nudity Impact", "Sex Impact"]

/-- App.py's `Impact_Column_Blank` flag. -/
def appImpactBlankFlag (t : Table) (i : Nat) : Bool :=
  impactColumns.any (fun c => cellBlank (t.cell i c))

/-- The valid impact values of App.py line 53. -/
def validImpacts : List String := ["None", "Low", "Medium", "High"]

/-- App.py's `Impact_Column_Invalid` flag: some impact cell is not in the
valid set (`NaN` is in no set). -/
def appImpactInvalidFlag (t : Table) (i : Nat) : Bool :=
  !impactColumns.all (fun c =>
    match t.cell i c with
    | some s => validImpacts.contains s
    | none => false)

/-- The row-selection mask of App.py lines 56–65: any of the eight flags. -/
def appAnyFlag (t : Table) (i : Nat) : Bool :=
  appMissingValues t i || appDupFlag t i || appNonEnglishFlag t i ||
  appCLFlag t i || appAgeFlag t i || appDateFlag (t.cell i "Rating Date") ||
  appImpactBlankFlag t i || appImpactInvalidFlag t i

/-- The per-row message list of App.py lines 70–87. -/
def appMessages (t : Table) (i : Nat) : List String :=
  (if appMissingValues t i then ["Missing required values"] else []) ++
  (if appDupFlag t i then
    ["Duplicate GTI \x27" ++ pyStr (t.cell i "GTI") ++ "\x27"] else []) ++
  (if appNonEnglishFlag t i then
    ["Non-English characters found in text fields"] else []) ++
  (if appCLFlag t i then
    ["Non-numeric value found in \x27Countries\x27 or \x27Languages\x27"] else []) ++
  (if appAgeFlag t i then
    ["Invalid Age Rating ID \x27" ++ pyStr (t.cell i "Age Rating ID") ++
     "\x27 (Allowed: 2, 9, 154, 147)"] else []) ++
  (if appDateFlag (t.cell i "Rating Date") then
    ["Invalid date format in \x27Rating Date\x27 (Expected: MM/DD/YYYY)"] else []) ++
  (if appImpactBlankFlag t i then
    ["Impact columns cannot be blank (Allowed: \x27None\x27, \x27Low\x27, \x27Medium\x27, \x27High\x27)"] else []) ++
  (if appImpactInvalidFlag t i then
    ["Impact column contains invalid values (Allowed: \x27None\x27, \x27Low\x27, \x27Medium\x27, \x27High\x27)"] else [])

/-- The `error_report` App.py builds (and prints) for flagged rows, keyed by
the 1-based row index. -/
def appRun (t : Table) : List (Nat × List String) :=
  (List.range t.rows.length).filterMap (fun i =>
    if appAnyFlag t i then some (i + 1, appMessages t i) else none)

/-- App.py crashes after the schema check when a `NaN` sits in a column
whose mask is inverted: line 40 (`~str.isdigit` on Countries/Languages) or
line 48 (`~str.match` on Rating Date) raises `TypeError`.  The other masks
(lines 26–37, 52–53) are `NaN`-free: `isna`, `isin`, and `== False` absorb
`NaN` into booleans. -/
def appMaskCrash (t : Table) : Bool :=
  (List.range t.rows.length).any (fun i =>
    (t.cell i "Countries").isNone || (t.cell i "Languages").isNone) ||
  (List.range t.rows.length).any (fun i => (t.cell i "Rating Date").isNone)

/-- App.py `validate_excel` on a loaded table: lines 21–23 compute the
missing required columns and raise a `ValueError` naming that whole list
before any row-level rule runs; then a `NaN` in Countries, Languages or
Rating Date raises `TypeError` while the flag columns are built; otherwise
the rules run and the row-keyed report is produced (App.py prints it). -/
def validate_excel (t : Table) : Except PyError (List (Nat × List String)) :=
  let missing := required_columns.filter (fun c => !t.columns.contains c)
  if missing.isEmpty then
    if appMaskCrash t then .error .typeError else .ok (appRun t)
  else .error (.valueError missing)

/-- Modelled from the spec's words (§4.7), the refinement target for the
date rule, on the character list: shape `MM/DD/YYYY`, all digits, with the
two-digit month's value between 1 and 12 and the two-digit day's value
between 1 and 31. -/
def specDateChars : List Char → Bool
  | [m1, m2, s1, d1, d2, s2, y1, y2, y3, y4] =>
    asciiDigit m1 && asciiDigit m2 && s1.toNat = 47 &&
    (1 ≤ 10 * (m1.toNat - 48) + (m2.toNat - 48) &&
     10 * (m1.toNat - 48) + (m2.toNat - 48) ≤ 12) &&
    asciiDigit d1 && asciiDigit d2 && s2.toNat = 47 &&
    (1 ≤ 10 * (d1.toNat - 48) + (d2.toNat - 48) &&
     10 * (d1.toNat - 48) + (d2.toNat - 48) ≤ 31) &&
    asciiDigit y1 && asciiDigit y2 && asciiDigit y3 && asciiDigit y4
  | _ => false

/-- The spec's date pattern on a string. -/
def specDatePattern (s : String) : Bool :=
  specDateChars s.data

/-! ## Concrete tables used by witnesses and counterexamples -/

/-- A table with every required column and one fully valid row. -/
def cleanTable : Table :=
  ⟨required_columns,
   [[some "G1", some "E", some "Title", some "Other", some "100",
     some "P", some "D", some "PC", some "2020",
     some "36", some "1", some "Yes", some "2",
     some "CD", some "None", some "None",
     some "None", some "None", some "None", some "None",
     some "Yes", some "No", some "01/15/2024"]]⟩

/-- A table missing all required columns but "Title Name". -/
def tMissing : Table := ⟨["Title Name"], []⟩

/-- Ten rows with GTI value `"X"` at 0-based rows 3, 7 and 9. -/
def tDup : Table :=
  ⟨["GTI"],
   [[some "A"], [some "B"], [some "C"], [some "X"], [some "D"],
    [some "E"], [some "F"], [some "X"], [some "G"], [some "X"]]⟩

/-- One row with an invalid Age Rating ID. -/
def tAge : Table := ⟨["Age Rating ID"], [[some "10"]]⟩

/-- One row whose GTI and "Other Title Name(s)" cells are absent and whose
Entity cell is the empty string. -/
def tBlank : Table :=
  ⟨["GTI", "Entity", "Other Title Name(s)"], [[none, some "", none]]⟩

/-- One row with a non-ASCII character in the Title Name. -/
def tNE : Table := ⟨["Title Name"], [[some "Amélie"]]⟩

/-- One row where only the Countries value is non-numeric (and the columns
app1.py looks up are all present, so its run completes). -/
def tCL : Table :=
  ⟨["GTI", "Countries", "Languages", "Age Rating ID", "Rating Date"],
   [[some "G", some "abc", some "12", some "2", some "01/15/2024"]]⟩

/-- One row whose Countries cell is absent (every column app1.py looks up
is present, so the `TypeError` of line 51 is the exception hit). -/
def tCLNaN : Table :=
  ⟨["GTI", "Countries", "Languages", "Age Rating ID", "Rating Date"],
   [[some "G", none, some "12", some "2", some "01/15/2024"]]⟩

/-- A Countries/Languages table with an absent Countries cell, on which
Flask2.py's Rule 4 mask inversion raises `TypeError`. -/
def tCrash : Table := ⟨["Countries", "Languages"], [[none, some "1"]]⟩

/-- Every required column, one row valid except an absent Rating Date. -/
def tDateNaN : Table :=
  ⟨required_columns,
   [[some "G1", some "E", some "Title", some "Other", some "100",
     some "P", some "D", some "PC", some "2020",
     some "36", some "1", some "Yes", some "2",
     some "CD", some "None", some "None",
     some "None", some "None", some "None", some "None",
     some "Yes", some "No", none]]⟩

/-- Two rows, both with an absent GTI. -/
def tNaN : Table := ⟨["GTI"], [[none], [none]]⟩

/-- One row whose Rating Date is `"13/01/2024"` (month 13). -/
def tLaxDate : Table := ⟨["Rating Date"], [[some "13/01/2024"]]⟩

/-- One row with an absent Rating Date (and the other columns app1.py
touches present and valid). -/
def tMut : Table :=
  ⟨["GTI", "Countries", "Languages", "Age Rating ID", "Rating Date"],
   [[some "G", some "1", some "2", some "2", none]]⟩

/-! ## Helper lemmas -/

/-- Elements of `uniqueAux l seen` are the elements of `l` not in `seen`. -/
theorem mem_uniqueAux {α : Type} [DecidableEq α] {l : List α} {seen : List α}
    {a : α} : a ∈ uniqueAux l seen ↔ a ∈ l ∧ a ∉ seen := by
  induction l generalizing seen with
  | nil => simp [uniqueAux]
  | cons x xs ih =>
    rw [uniqueAux]
    by_cases hx : x ∈ seen
    · rw [if_pos hx, ih]
      simp only [List.mem_cons]
      constructor
      · exact fun ⟨h1, h2⟩ => ⟨Or.inr h1, h2⟩
      · rintro ⟨h1 | h1, h2⟩
        · exact absurd (h1 ▸ hx) h2
        · exact ⟨h1, h2⟩
    · rw [if_neg hx]
      simp only [List.mem_cons, ih, List.mem_cons]
      constructor
      · rintro (rfl | ⟨h1, h2⟩)
        · exact ⟨Or.inl rfl, hx⟩
        · exact ⟨Or.inr h1, fun hs => h2 (Or.inr hs)⟩
      · rintro ⟨rfl | h1, h2⟩
        · exact Or.inl rfl
        · by_cases hax : a = x
          · exact Or.inl hax
          · exact Or.inr ⟨h1, fun hs => (hs.elim hax h2)⟩

/-- Membership is preserved by first-occurrence deduplication. -/
theorem mem_uniqueFirst {α : Type} [DecidableEq α] {l : List α} {a : α} :
    a ∈ uniqueFirst l ↔ a ∈ l := by
  rw [uniqueFirst, mem_uniqueAux]
  simp

/-- Worker lemma: `uniqueAux` yields a list without duplicates. -/
theorem nodup_uniqueAux {α : Type} [DecidableEq α] (l : List α)
    (seen : List α) : (uniqueAux l seen).Nodup := by
  induction l generalizing seen with
  | nil => simp [uniqueAux]
  | cons x xs ih =>
    rw [uniqueAux]
    by_cases hx : x ∈ seen
    · rw [if_pos hx]; exact ih seen
    · rw [if_neg hx]
      refine List.nodup_cons.mpr ⟨?_, ih (x :: seen)⟩
      intro hmem
      exact (mem_uniqueAux.mp hmem).2 (List.mem_cons_self _ _)

/-- First-occurrence deduplication yields a list without duplicates. -/
theorem nodup_uniqueFirst {α : Type} [DecidableEq α] (l : List α) :
    (uniqueFirst l).Nodup :=
  nodup_uniqueAux l []

/-- Pandas elementwise `==` against a present value is plain equality. -/
theorem cellEqPd_some (a : Option String) (s : String) :
    cellEqPd a (some s) = (a == some s) := by
  cases a <;> simp only [cellEqPd]
  · rfl
  · apply Bool.eq_iff_iff.mpr
    simp [beq_iff_eq]

/-- Pandas elementwise `==` against `NaN` never holds. -/
theorem cellEqPd_none (v : Option String) : cellEqPd v none = false := by
  cases v <;> rfl

/-- A successful label lookup points at the looked-up label. -/
theorem colIdx_get (cols : List String) (c : String) (k : Nat)
    (h : colIdx cols c = some k) : cols.get? k = some c := by
  induction cols generalizing k with
  | nil => simp [colIdx] at h
  | cons x xs ih =>
    rw [colIdx] at h
    by_cases hxc : x = c
    · simp [hxc] at h
      subst h
      simp [hxc]
    · simp [hxc] at h
      obtain ⟨k', hk', rfl⟩ := h
      simpa using ih k' hk'

/-- A label present in the column list has an index. -/
theorem colIdx_isSome (cols : List String) (c : String) (h : c ∈ cols) :
    ∃ k, colIdx cols c = some k := by
  induction cols with
  | nil => simp at h
  | cons x xs ih =>
    rw [colIdx]
    by_cases hxc : x = c
    · exact ⟨0, by simp [hxc]⟩
    · rcases List.mem_cons.mp h with h1 | h1
      · exact absurd h1.symm hxc
      · obtain ⟨k, hk⟩ := ih h1
        exact ⟨k + 1, by simp [hxc, hk]⟩

/-- A predicate holding at exactly one member of a duplicate-free list is
counted exactly once. -/
theorem countP_eq_one_of_nodup {α : Type} {l : List α} {p : α → Bool} {a : α}
    (hnd : l.Nodup) (ha : a ∈ l) (hpa : p a = true)
    (hq : ∀ b ∈ l, b ≠ a → p b = false) : l.countP p = 1 := by
  induction l with
  | nil => simp at ha
  | cons x xs ih =>
    rw [List.nodup_cons] at hnd
    rw [List.countP_cons]
    rcases List.mem_cons.mp ha with rfl | ha'
    · have hz : List.countP p xs = 0 := by
        apply List.countP_eq_zero.mpr
        intro b hb
        simp [hq b (List.mem_cons_of_mem _ hb) (fun hba => hnd.1 (hba ▸ hb))]
      simp [hz, hpa]
    · have hxa : x ≠ a := fun hxa => hnd.1 (hxa ▸ ha')
      have hx0 : p x = false := hq x (List.mem_cons_self _ _) hxa
      rw [ih hnd.2 ha'
        (fun b hb hba => hq b (List.mem_cons_of_mem _ hb) hba)]
      simp [hx0]

/-- The extracted non-ASCII substring is nonempty exactly when the string
has a character above code point 0x7F. -/
theorem findNonEnglish_ne_empty (s : String) :
    (findNonEnglish s).isEmpty = false ↔ ∃ ch ∈ s.data, 127 < ch.toNat := by
  rw [show (findNonEnglish s).isEmpty = false ↔ ¬(findNonEnglish s).isEmpty = true by simp,
    String.isEmpty_iff (findNonEnglish s), String.ext_iff]
  rw [show (findNonEnglish s).data = s.data.filter (fun c => 127 < c.toNat) from rfl]
  rw [show ("" : String).data = [] from rfl, List.filter_eq_nil_iff]
  constructor
  · intro h
    by_contra habs
    push_neg at habs
    exact h (fun a ha => by simpa using habs a ha)
  · rintro ⟨ch, hch, hgt⟩ h
    exact (h ch hch) (by simpa using hgt)

/-- Sum of a pointwise-zero map except at one member occurring once. -/
theorem sum_map_single {l : List Nat} {f : Nat → Nat} {i : Nat}
    (hnd : l.Nodup) (hmem : i ∈ l) (hf : f i = 1)
    (h0 : ∀ j ∈ l, j ≠ i → f j = 0) : (l.map f).sum = 1 := by
  induction l with
  | nil => simp at hmem
  | cons a l ih =>
    rw [List.nodup_cons] at hnd
    rcases List.mem_cons.mp hmem with rfl | hmem'
    · have hz : ∀ j ∈ l, f j = 0 := by
        intro j hj
        exact h0 j (List.mem_cons_of_mem _ hj) (fun hji => hnd.1 (hji ▸ hj))
      have : (l.map f).sum = 0 := by
        apply List.sum_eq_zero
        intro x hx
        obtain ⟨j, hj, rfl⟩ := List.mem_map.mp hx
        exact hz j hj
      simp [hf, this]
    · have hai : a ≠ i := fun hai => hnd.1 (hai ▸ hmem')
      have : f a = 0 := h0 a (List.mem_cons_self _ _) hai
      simp only [List.map_cons, List.sum_cons, this, Nat.zero_add]
      exact ih hnd.2 hmem' (fun j hj hji => h0 j (List.mem_cons_of_mem _ hj) hji)

/-- The strict regex of App.py agrees with the spec's month/day-bounded
pattern on every character list. -/
theorem strictDateChars_eq_spec (l : List Char) :
    strictDateChars l = specDateChars l := by
  rcases l with _ | ⟨m1, _ | ⟨m2, _ | ⟨s1, _ | ⟨d1, _ | ⟨d2, _ | ⟨s2, _ | ⟨y1, _ | ⟨y2, _ | ⟨y3, _ | ⟨y4, _ | ⟨e, rest⟩⟩⟩⟩⟩⟩⟩⟩⟩⟩⟩
  all_goals try rfl
  apply Bool.eq_iff_iff.mpr
  simp only [strictDateChars, specDateChars, monthPat, dayPat, asciiDigit,
    Bool.and_eq_true, Bool.or_eq_true, decide_eq_true_eq]
  omega

/-- Boolean `contains` on a string list coincides with membership. -/
theorem contains_eq_true_iff_mem (l : List String) (c : String) :
    l.contains c = true ↔ c ∈ l := by
  simp [List.contains_iff_exists_mem_beq, beq_iff_eq]

/-- A run of app1.py that raises no exception has a Rating Date column. -/
theorem app1Abort_none_ratingDate (t : Table) (h : app1Abort t = none) :
    t.columns.contains "Rating Date" = true := by
  rw [app1Abort] at h
  split at h
  · exact absurd h (by simp)
  · split at h
    · exact absurd h (by simp)
    · split at h
      · exact absurd h (by simp)
      · split at h
        · exact absurd h (by simp)
        · split at h
          · exact absurd h (by simp)
          · split at h
            · exact absurd h (by simp)
            · rename_i h6
              simpa using h6

/-- Line 65's overwrite, specified: on a rectangular table it keeps the
column schema, keeps every cell outside the Rating Date column, and sets
each Rating Date cell to the `str` rendering of its old value. -/
theorem astypeRatingDate_spec (t : Table)
    (halign : ∀ r ∈ t.rows, r.length = t.columns.length) :
    (astypeStrRatingDate t).columns = t.columns ∧
    (∀ i, ∀ c, c ≠ "Rating Date" →
      (astypeStrRatingDate t).cell i c = t.cell i c) ∧
    (∀ i, i < t.rows.length → "Rating Date" ∈ t.columns →
      (astypeStrRatingDate t).cell i "Rating Date" =
        some (pyStr (t.cell i "Rating Date"))) := by
  cases hRD : colIdx t.columns "Rating Date" with
  | none =>
    have hid : astypeStrRatingDate t = t := by
      rw [astypeStrRatingDate, hRD]
    refine ⟨by rw [hid], fun i c _ => by rw [hid], ?_⟩
    intro i _ hmem
    obtain ⟨k, hk⟩ := colIdx_isSome t.columns "Rating Date" hmem
    rw [hRD] at hk
    exact absurd hk (by simp)
  | some j =>
    have hast : astypeStrRatingDate t =
        { t with rows := t.rows.map (fun r => r.set j (some (pyStr ((r.get? j).getD none)))) } := by
      rw [astypeStrRatingDate, hRD]
    refine ⟨by rw [hast], ?_, ?_⟩
    · intro i c hne
      rw [hast, Table.cell, Table.cell]
      simp only
      cases hc : colIdx t.columns c with
      | none => rfl
      | some k =>
        have hkj : j ≠ k := by
          intro hkj
          have h1 := colIdx_get t.columns c k hc
          have h2 := colIdx_get t.columns "Rating Date" j hRD
          rw [hkj, h1] at h2
          exact hne (by injection h2)
        rw [List.get?_map]
        cases hri : t.rows.get? i with
        | none => rfl
        | some r =>
          simp only [Option.map_some']
          rw [show ∀ l : List (Option String), ∀ v, (l.set j v).get? k = l.get? k
            from fun l v => by
              rw [List.get?_eq_getElem?, List.get?_eq_getElem?]
              exact List.getElem?_set_ne hkj]
    · intro i hi hmem
      obtain ⟨r, hri⟩ : ∃ r, t.rows.get? i = some r := by
        rw [List.get?_eq_getElem?]
        exact ⟨t.rows[i], List.getElem?_eq_some_iff.mpr ⟨hi, rfl⟩⟩
      have hrmem : r ∈ t.rows := List.get?_mem hri
      have hjlt : j < t.columns.length := by
        have := colIdx_get t.columns "Rating Date" j hRD
        rw [List.get?_eq_getElem?] at this
        exact (List.getElem?_eq_some_iff.mp this).1
      have hjr : j < r.length := by rw [halign r hrmem]; exact hjlt
      rw [hast, Table.cell, Table.cell]
      simp only
      rw [hRD, List.get?_map, hri]
      simp only [Option.map_some']
      rw [show (r.set j (some (pyStr ((r.get? j).getD none)))).get? j =
          some (some (pyStr ((r.get? j).getD none))) by
        rw [List.get?_eq_getElem?, List.getElem?_set]
        simp [hjr]]
      rfl

/-! ## Claims -/

/-- C4 counterexample: Flask2.py's date rule — one of the repository's two
date rules — accepts `"13/01/2024"`: its lax `\d{2}/\d{2}/\d{4}` pattern
matches, and a table whose Rating Date is `"13/01/2024"` produces no
`invalid_date_format` entry, against the claim that month 13 is rejected. -/
theorem c4_counterexample :
    laxDateMatch "13/01/2024" = true ∧ flask2DateFormat tLaxDate = [] := by
  exact ⟨by decide, by decide⟩

/-- C4 amended: App.py's date rule accepts a Rating Date value exactly when
it matches `MM/DD/YYYY` with MM in 01–12 and DD in 01–31, with no calendar
arithmetic — `"02/30/2024"` accepted, `"2024/02/01"` and `"13/01/2024"`
rejected, the blank value `""` flagged — while an *absent* Rating Date
makes App.py's line 48 mask inversion raise `TypeError`, so the run
escapes with an exception instead of flagging the row; Flask2.py's date
rule instead requires only the two-digits/two-digits/four-digits shape, so
it also accepts `"13/01/2024"`, while still rejecting `"2024/02/01"` and
flagging blank or absent values (rendered `"nan"` by `astype(str)`). -/
theorem c4_date_format_rule :
    ((∀ s : String, dateOkStrict s = specDatePattern s) ∧
     dateOkStrict "02/30/2024" = true ∧
     dateOkStrict "2024/02/01" = false ∧
     dateOkStrict "13/01/2024" = false ∧
     appDateFlag (some "") = true) ∧
    (∀ t : Table,
      (required_columns.filter (fun c => !t.columns.contains c)).isEmpty = true →
      (List.range t.rows.length).any
        (fun i => (t.cell i "Rating Date").isNone) = true →
      validate_excel t = .error .typeError) ∧
    (laxDateMatch "02/30/2024" = true ∧
     laxDateMatch "2024/02/01" = false ∧
     laxDateMatch (pyStr (some "")) = false ∧
     laxDateMatch (pyStr none) = false) := by
  refine ⟨⟨fun s => strictDateChars_eq_spec s.data, by decide, by decide,
    by decide, by decide⟩, ?_, by decide, by decide, by decide, by decide⟩
  intro t h1 h2
  rw [validate_excel]
  simp only [h1, if_true]
  rw [if_pos (by rw [appMaskCrash, h2]; simp)]

/-- Witness for C4's amended statement: a schema-complete table with an
absent Rating Date makes `validate_excel` raise `TypeError`. -/
theorem c4_date_format_rule_witness :
    ((required_columns.filter (fun c => !tDateNaN.columns.contains c)).isEmpty = true ∧
     (List.range tDateNaN.rows.length).any
       (fun i => (tDateNaN.cell i "Rating Date").isNone) = true) ∧
    validate_excel tDateNaN = .error .typeError :=
  ⟨⟨by decide, by decide⟩,
   c4_date_format_rule.2.1 tDateNaN (by decide) (by decide)⟩

/-- C2: when at least one required column is missing, App.py's
`validate_excel` fails with a single error naming every missing required
column, and no row-level report is produced. -/
theorem c2_schema_error (t : Table)
    (h : required_columns.filter (fun c => !t.columns.contains c) ≠ []) :
    validate_excel t =
      .error (.valueError (required_columns.filter (fun c => !t.columns.contains c))) ∧
    ∀ c ∈ required_columns, t.columns.contains c = false →
      c ∈ required_columns.filter (fun c => !t.columns.contains c) := by
  constructor
  · rw [validate_excel, if_neg]
    simpa [List.isEmpty_iff] using h
  · intro c hc hnc
    simp only [List.mem_filter, hnc]
    exact ⟨hc, rfl⟩

/-- Witness for C2 at a table missing 22 of the 23 required columns. -/
theorem c2_schema_error_witness :
    (required_columns.filter (fun c => !tMissing.columns.contains c) ≠ []) ∧
    (validate_excel tMissing =
      .error (.valueError (required_columns.filter (fun c => !tMissing.columns.contains c))) ∧
     ∀ c ∈ required_columns, tMissing.columns.contains c = false →
       c ∈ required_columns.filter (fun c => !tMissing.columns.contains c)) :=
  ⟨by decide, c2_schema_error tMissing (by decide)⟩

/-- C1 counterexample: on a table containing every required column (and no
data-quality issue at all), Flask2.py's `validate_file` returns a report
with no `invalid_impact_value` category — only six categories exist, so the
claimed seventh sequence is absent. -/
theorem c1_counterexample :
    required_columns.all (fun c => cleanTable.columns.contains c) = true ∧
    flask2_validate_file cleanTable = .ok (flask2ReportEntries cleanTable) ∧
    (flask2ReportEntries cleanTable).lookup "invalid_impact_value" = none := by
  refine ⟨by decide, by decide, rfl⟩

/-- C1 amended: when no Countries/Languages cell is absent (the condition
under which Rule 4's mask inversion would raise `TypeError` and return no
report), Flask2.py's `validate_file` returns a report with exactly the six
categories `blank_cells`, `non_english_characters`, `duplicate_gti`,
`invalid_country_language`, `invalid_age_rating` and
`invalid_date_format`, each possibly empty; when such a cell is absent and
both columns exist, the run raises instead of returning a report; a table
with zero violations yields every category present and empty. -/
theorem c1_report_categories :
    (∀ t : Table, flask2Rule4Crash t = false →
      flask2_validate_file t = .ok (flask2ReportEntries t)) ∧
    (∀ t : Table, (flask2ReportEntries t).map Prod.fst =
      ["blank_cells", "non_english_characters", "duplicate_gti",
       "invalid_country_language", "invalid_age_rating", "invalid_date_format"]) ∧
    (∀ t : Table, flask2Rule4Crash t = true →
      flask2_validate_file t = .error .typeError) ∧
    (flask2ReportEntries cleanTable).all (fun p => p.2.isEmpty) = true := by
  refine ⟨?_, fun t => rfl, ?_, by decide⟩
  · intro t h
    rw [flask2_validate_file, if_neg (by simp [h])]
  · intro t h
    rw [flask2_validate_file, if_pos h]

/-- Witness for C1's amended statement: the clean table returns its report
and the `NaN`-Countries table raises. -/
theorem c1_report_categories_witness :
    (flask2Rule4Crash cleanTable = false ∧ flask2Rule4Crash tCrash = true) ∧
    (flask2_validate_file cleanTable = .ok (flask2ReportEntries cleanTable) ∧
     flask2_validate_file tCrash = .error .typeError) :=
  ⟨⟨by decide, by decide⟩,
   c1_report_categories.1 cleanTable (by decide),
   c1_report_categories.2.2.1 tCrash (by decide)⟩

/-- C5: the age-rating rule accepts exactly the textual values
`"2"`, `"9"`, `"154"`, `"147"`; `"10"` fails; every row failing the check
yields an entry, and every entry carries the row number and the offending
raw value. -/
theorem c5_age_rating_rule :
    (∀ v, ageIsin v = true ↔
      v = some "2" ∨ v = some "9" ∨ v = some "154" ∨ v = some "147") ∧
    ageIsin (some "10") = false ∧
    (∀ t : Table, ∀ i, t.columns.contains "Age Rating ID" = true →
      i < t.rows.length → ageIsin (t.cell i "Age Rating ID") = false →
      (⟨i + 2, t.cell i "Age Rating ID"⟩ : AgeViol) ∈ flask2AgeRating t) ∧
    (∀ t : Table, ∀ e, e ∈ flask2AgeRating t →
      ∃ i, i < t.rows.length ∧ e.row = i + 2 ∧
        e.value = t.cell i "Age Rating ID" ∧ ageIsin e.value = false) := by
  refine ⟨?_, by decide, ?_, ?_⟩
  · intro v
    cases v with
    | none => simp [ageIsin]
    | some s => simp [ageIsin, validAgeRatings, List.contains_iff_exists_mem_beq,
        beq_iff_eq]
  · intro t i hcol hi hflag
    rw [flask2AgeRating, if_pos hcol]
    rw [List.mem_filterMap]
    exact ⟨i, List.mem_range.mpr hi, by rw [if_neg (by simp [hflag])]⟩
  · intro t e he
    rw [flask2AgeRating] at he
    by_cases hcol : t.columns.contains "Age Rating ID" = true
    · rw [if_pos hcol, List.mem_filterMap] at he
      obtain ⟨i, hi, hfe⟩ := he
      by_cases hflag : ageIsin (t.cell i "Age Rating ID") = true
      · rw [if_pos hflag] at hfe
        exact absurd hfe (by simp)
      · rw [if_neg hflag, Option.some_inj] at hfe
        exact ⟨i, List.mem_range.mp hi, by rw [← hfe],
          by rw [← hfe], by rw [← hfe]; simpa using hflag⟩
    · rw [if_neg hcol] at he
      exact absurd he (List.not_mem_nil e)

/-- Witness for C5 at a one-row table whose Age Rating ID is `"10"`. -/
theorem c5_age_rating_rule_witness :
    (tAge.columns.contains "Age Rating ID" = true ∧ 0 < tAge.rows.length ∧
      ageIsin (tAge.cell 0 "Age Rating ID") = false) ∧
    (⟨2, tAge.cell 0 "Age Rating ID"⟩ : AgeViol) ∈ flask2AgeRating tAge :=
  ⟨⟨by decide, by decide, by decide⟩,
   c5_age_rating_rule.2.2.1 tAge 0 (by decide) (by decide) (by decide)⟩

/-- C8 counterexample: a row whose Countries cell is absent emits no
violation at all — app1.py's line 51 mask inversion raises `TypeError`,
the run escapes with the exception, and no report (hence no entry carrying
the pair of raw values) is returned. -/
theorem c8_counterexample :
    (app1_validate_file tCLNaN).2 = Except.error PyError.typeError := by decide

/-- C8 amended: when every Countries and Languages cell is present, a row
whose Countries or Languages value is blank (the empty string) or contains
a non-digit character gets an entry carrying both raw values, even when
only one of the two is invalid; when some Countries or Languages cell is
absent, app1.py instead raises `TypeError` at line 51 and emits nothing. -/
theorem c8_country_language_rule :
    (∀ s : String, pyIsDigit s = false ↔
      s = "" ∨ ∃ c ∈ s.data, asciiDigit c = false) ∧
    (∀ t : Table, ∀ i, ∀ c l : String, i < t.rows.length →
      t.cell i "Countries" = some c → t.cell i "Languages" = some l →
      (pyIsDigit c && pyIsDigit l) = false →
      (⟨i + 2, c, l⟩ : CLViolS) ∈ app1CountryLang t) ∧
    (∀ t : Table,
      t.columns.contains "GTI" = true →
      t.columns.contains "Countries" = true →
      t.columns.contains "Languages" = true →
      (List.range t.rows.length).any (fun i =>
        (t.cell i "Countries").isNone || (t.cell i "Languages").isNone) = true →
      (app1_validate_file t).2 = Except.error PyError.typeError) := by
  refine ⟨?_, ?_, ?_⟩
  · intro s
    constructor
    · intro h
      rcases Bool.and_eq_false_iff.mp h with h1 | h1
      · left
        have hse : s.isEmpty = true := by
          cases he : s.isEmpty
          · rw [he] at h1; exact absurd h1 (by decide)
          · rfl
        exact (String.isEmpty_iff s).mp hse
      · refine Or.inr ?_
        obtain ⟨c, hc, hpc⟩ := List.all_eq_false.mp h1
        exact ⟨c, hc, Bool.not_eq_true _ ▸ hpc⟩
    · rintro (rfl | ⟨c, hc, hdc⟩)
      · decide
      · apply Bool.and_eq_false_iff.mpr
        right
        exact List.all_eq_false.mpr ⟨c, hc, by simp [hdc]⟩
  · intro t i c l hi hc hl hflag
    rw [app1CountryLang, List.mem_filterMap]
    refine ⟨i, List.mem_range.mpr hi, ?_⟩
    rw [hc, hl]
    simp only [hflag]
    rfl
  · intro t hg hc hl hnan
    have habort : app1Abort t = some PyError.typeError := by
      rw [app1Abort]
      rw [if_neg (by rw [hg]; decide), if_neg (by rw [hc]; decide),
        if_neg (by rw [hl]; decide), if_pos hnan]
    rw [app1_validate_file, habort]

/-- C3: for every GTI value shared by two or more rows, the duplicate rule
emits exactly one cluster carrying that value, whose row list is the
complete ordered list of positions (zero-based index + 2) of all rows
sharing it, the first occurrence included; concretely, value `"X"` at
zero-based rows 3, 7, 9 yields the single cluster `⟨"X", [5, 9, 11]⟩`. -/
theorem c3_duplicate_clusters (t : Table) (s : String)
    (hcol : t.columns.contains "GTI" = true)
    (hdup : 2 ≤ (gtiValues t).count (some s)) :
    ((flask2DupGti t).countP (fun c => c.gti == some s) = 1 ∧
     ∀ c ∈ flask2DupGti t, c.gti = some s →
       c.rows = ((List.range t.rows.length).filter
         (fun i => t.cell i "GTI" == some s)).map (· + 2)) ∧
    flask2DupGti tDup = [⟨some "X", [5, 9, 11]⟩] := by
  have hmem : (some s : Option String) ∈ dupGtiValues t := by
    apply mem_uniqueFirst.mpr
    apply List.mem_filter.mpr
    have hpos : (some s : Option String) ∈ gtiValues t := by
      by_contra habs
      rw [List.count_eq_zero_of_not_mem habs] at hdup
      omega
    exact ⟨hpos, by simpa using hdup⟩
  refine ⟨⟨?_, ?_⟩, by decide⟩
  · rw [flask2DupGti, if_pos hcol, List.countP_map]
    apply countP_eq_one_of_nodup (nodup_uniqueFirst _) hmem
    · simp
    · intro b _ hb
      simpa using hb
  · intro c hc hgti
    rw [flask2DupGti, if_pos hcol] at hc
    obtain ⟨v, _, rfl⟩ := List.mem_map.mp hc
    simp only at hgti
    subst hgti
    simp only
    congr 1
    rw [gtiRowsEq]
    exact List.filter_congr (fun i _ => cellEqPd_some _ s)

/-- Witness for C3 at the ten-row table with `"X"` at rows 3, 7 and 9. -/
theorem c3_duplicate_clusters_witness :
    (tDup.columns.contains "GTI" = true ∧
      2 ≤ (gtiValues tDup).count (some "X")) ∧
    (((flask2DupGti tDup).countP (fun c => c.gti == some "X") = 1 ∧
      ∀ c ∈ flask2DupGti tDup, c.gti = some "X" →
        c.rows = ((List.range tDup.rows.length).filter
          (fun i => tDup.cell i "GTI" == some "X")).map (· + 2)) ∧
     flask2DupGti tDup = [⟨some "X", [5, 9, 11]⟩]) :=
  ⟨⟨by decide, by decide⟩,
   c3_duplicate_clusters tDup "X" (by decide) (by decide)⟩

/-- Witness for C8's amended statement: membership at a row where only the
Countries value is invalid, and the `TypeError` at a row whose Countries
cell is absent. -/
theorem c8_country_language_rule_witness :
    (0 < tCL.rows.length ∧ tCL.cell 0 "Countries" = some "abc" ∧
      tCL.cell 0 "Languages" = some "12" ∧
      (pyIsDigit "abc" && pyIsDigit "12") = false ∧
      tCLNaN.columns.contains "GTI" = true ∧
      tCLNaN.columns.contains "Countries" = true ∧
      tCLNaN.columns.contains "Languages" = true ∧
      (List.range tCLNaN.rows.length).any (fun i =>
        (tCLNaN.cell i "Countries").isNone ||
        (tCLNaN.cell i "Languages").isNone) = true) ∧
    ((⟨2, "abc", "12"⟩ : CLViolS) ∈ app1CountryLang tCL ∧
     (app1_validate_file tCLNaN).2 = Except.error PyError.typeError) :=
  ⟨⟨by decide, by decide, by decide, by decide, by decide, by decide,
    by decide, by decide⟩,
   c8_country_language_rule.2.1 tCL 0 "abc" "12" (by decide) (by decide)
     (by decide) (by decide),
   c8_country_language_rule.2.2 tCLNaN (by decide) (by decide) (by decide)
     (by decide)⟩

/-- C6 counterexample: on a one-row table whose GTI and
"Other Title Name(s)" cells are absent and whose Entity cell is the empty
string, Flask2.py's blank rule emits a violation whose column list contains
the supposedly exempt "Other Title Name(s)" column and omits the
empty-string Entity cell — so the exempt column *is* checked for blankness
in the attached list, and empty strings do not count as blank. -/
theorem c6_counterexample :
    flask2BlankCells tBlank = [⟨2, ["GTI", "Other Title Name(s)"]⟩] ∧
    "Other Title Name(s)" ∈ ["GTI", "Other Title Name(s)"] ∧
    "Entity" ∉ ["GTI", "Other Title Name(s)"] := by
  refine ⟨by decide, by decide, by decide⟩

/-- C6 amended: in Flask2.py's blank rule only absent (null) values count
as blank, never empty strings; the "Other Title Name(s)" column is exempt
only from *triggering* a violation, and each row with an absent cell in a
non-exempt column yields exactly one violation listing all of that row's
absent columns — including "Other Title Name(s)" when it is absent too. -/
theorem c6_blank_rule (t : Table) (i : Nat) (hi : i < t.rows.length) :
    ((t.columns.filter (fun c => c ≠ flask2ExemptCol)).any
        (fun c => (t.cell i c).isNone) = true →
      (⟨i + 2, t.columns.filter (fun c => (t.cell i c).isNone)⟩ : BlankViol) ∈
        flask2BlankCells t) ∧
    ((t.columns.filter (fun c => c ≠ flask2ExemptCol)).any
        (fun c => (t.cell i c).isNone) = true →
      (flask2BlankCells t).countP (fun e => e.row == i + 2) = 1) ∧
    ((t.columns.filter (fun c => c ≠ flask2ExemptCol)).any
        (fun c => (t.cell i c).isNone) = false →
      ∀ e ∈ flask2BlankCells t, e.row ≠ i + 2) := by
  refine ⟨?_, ?_, ?_⟩
  · intro htrig
    rw [flask2BlankCells, List.mem_filterMap]
    exact ⟨i, List.mem_range.mpr hi, by rw [if_pos htrig]⟩
  · intro htrig
    rw [flask2BlankCells, List.filterMap_eq_flatMap_toList,
      List.flatMap_def, List.countP_flatten, List.map_map]
    apply sum_map_single (List.nodup_range t.rows.length)
      (List.mem_range.mpr hi)
    · simp only [Function.comp]
      rw [if_pos htrig]
      simp
    · intro j _ hji
      simp only [Function.comp]
      by_cases hj : (t.columns.filter (fun c => c ≠ flask2ExemptCol)).any
          (fun c => (t.cell j c).isNone) = true
      · rw [if_pos hj]
        simp only [Option.toList_some, List.countP_cons, List.countP_nil]
        have : (j + 2 == i + 2) = false := by
          simp only [beq_eq_false_iff_ne]
          omega
        simp [this]
      · rw [if_neg hj]
        simp
  · intro htrig e he hrow
    rw [flask2BlankCells, List.mem_filterMap] at he
    obtain ⟨j, _, hfe⟩ := he
    by_cases hj : (t.columns.filter (fun c => c ≠ flask2ExemptCol)).any
        (fun c => (t.cell j c).isNone) = true
    · rw [if_pos hj, Option.some_inj] at hfe
      have : j = i := by
        have := congrArg BlankViol.row hfe
        simp only at this
        omega
      rw [this] at hj
      rw [hj] at htrig
      exact absurd htrig (by decide)
    · rw [if_neg hj] at hfe
      exact absurd hfe (by simp)

/-- Witness for C6's amended statement at the counterexample table. -/
theorem c6_blank_rule_witness :
    (0 < tBlank.rows.length) ∧
    (((tBlank.columns.filter (fun c => c ≠ flask2ExemptCol)).any
        (fun c => (tBlank.cell 0 c).isNone) = true →
      (⟨2, tBlank.columns.filter (fun c => (tBlank.cell 0 c).isNone)⟩ :
        BlankViol) ∈ flask2BlankCells tBlank) ∧
     ((tBlank.columns.filter (fun c => c ≠ flask2ExemptCol)).any
        (fun c => (tBlank.cell 0 c).isNone) = true →
      (flask2BlankCells tBlank).countP (fun e => e.row == 2) = 1) ∧
     ((tBlank.columns.filter (fun c => c ≠ flask2ExemptCol)).any
        (fun c => (tBlank.cell 0 c).isNone) = false →
      ∀ e ∈ flask2BlankCells tBlank, e.row ≠ 2)) :=
  ⟨by decide, c6_blank_rule tBlank 0 (by decide)⟩

/-- C9: rows with an absent GTI are never clustered with each other —
no cluster emitted by Flask2.py's duplicate rule contains the positions of
two distinct absent-identifier rows (pandas `==` matches no row against
`NaN`, so the `NaN` cluster's row list is empty). -/
theorem c9_absent_not_clustered (t : Table) (i j : Nat) (_hij : i ≠ j)
    (hi : t.cell i "GTI" = none) (_hj : t.cell j "GTI" = none) :
    ∀ c ∈ flask2DupGti t, ¬(i + 2 ∈ c.rows ∧ j + 2 ∈ c.rows) := by
  intro c hc ⟨hic, _⟩
  rw [flask2DupGti] at hc
  by_cases hcol : t.columns.contains "GTI" = true
  · rw [if_pos hcol] at hc
    obtain ⟨v, _, rfl⟩ := List.mem_map.mp hc
    simp only at hic
    obtain ⟨i', hi', hieq⟩ := List.mem_map.mp hic
    have : i' = i := by omega
    rw [this] at hi'
    have := (List.mem_filter.mp hi').2
    rw [hi] at this
    cases v with
    | none => exact absurd this (by decide)
    | some s => exact absurd this (by simp [cellEqPd])
  · rw [if_neg hcol] at hc
    exact absurd hc (List.not_mem_nil c)

/-- Witness for C9 at a two-row table with two absent GTIs (whose emitted
`NaN` cluster has an empty row list). -/
theorem c9_absent_not_clustered_witness :
    ((0 : Nat) ≠ 1 ∧ tNaN.cell 0 "GTI" = none ∧ tNaN.cell 1 "GTI" = none) ∧
    ∀ c ∈ flask2DupGti tNaN, ¬(2 ∈ c.rows ∧ 3 ∈ c.rows) :=
  ⟨⟨by decide, by decide, by decide⟩,
   c9_absent_not_clustered tNaN 0 1 (by decide) (by decide) (by decide)⟩

/-- C7: for every row and every free-text column among Title Name,
Other title names, Producers, Directors and Production Company Name, if the
cell contains a character with code point at least 0x80 then Flask.py's
non-English rule emits a violation for that (row, column) pair carrying the
row number, the column, the value, and the extracted substring of
disallowed characters — and exactly one violation per pair. -/
theorem c7_non_english_rule (t : Table) (i : Nat) (c : String) (s : String)
    (hnodup : t.columns.Nodup) (hi : i < t.rows.length)
    (hc : c ∈ t.columns)
    (_hft : c ∈ ["Title Name", "Other title names", "Producers",
      "Directors", "Production Company Name"])
    (hcell : t.cell i c = some s)
    (hbad : ∃ ch ∈ s.data, 127 < ch.toNat) :
    (⟨i + 2, c, s, findNonEnglish s⟩ : NEViol) ∈ flask_non_english t ∧
    (flask_non_english t).countP
      (fun e => e.row == i + 2 && e.column == c) = 1 := by
  have hmask : neMask t i c = findNonEnglish s := by rw [neMask, hcell]
  have hne : (neMask t i c).isEmpty = false := by
    rw [hmask]; exact (findNonEnglish_ne_empty s).mpr hbad
  have hrow : i ∈ (List.range t.rows.length).filter
      (fun i => t.columns.any (fun c => !(neMask t i c).isEmpty)) := by
    apply List.mem_filter.mpr
    refine ⟨List.mem_range.mpr hi, ?_⟩
    apply List.any_eq_true.mpr
    exact ⟨c, hc, by simp [hne]⟩
  have hcol : c ∈ t.columns.filter (fun c => !(neMask t i c).isEmpty) :=
    List.mem_filter.mpr ⟨hc, by simp [hne]⟩
  constructor
  · rw [flask_non_english, List.mem_flatMap]
    refine ⟨i, hrow, ?_⟩
    apply List.mem_map.mpr
    exact ⟨c, hcol, by rw [hcell, hmask]; rfl⟩
  · rw [flask_non_english, List.flatMap_def, List.countP_flatten, List.map_map]
    apply sum_map_single
      ((List.nodup_range t.rows.length).filter _) hrow
    · show List.countP _ (List.map _ _) = 1
      rw [List.countP_map]
      apply countP_eq_one_of_nodup (hnodup.filter _) hcol
      · simp
      · intro b _ hb
        simp only [Function.comp]
        apply Bool.and_eq_false_iff.mpr
        right
        simpa using hb
    · intro j hj hji
      show List.countP _ (List.map _ _) = 0
      rw [List.countP_map]
      apply List.countP_eq_zero.mpr
      intro b _
      simp only [Function.comp]
      simp [Nat.add_right_cancel_iff, hji]

/-- Witness for C7 at a one-row table whose Title Name contains `é`. -/
theorem c7_non_english_rule_witness :
    (tNE.columns.Nodup ∧ 0 < tNE.rows.length ∧ "Title Name" ∈ tNE.columns ∧
      "Title Name" ∈ ["Title Name", "Other title names", "Producers",
        "Directors", "Production Company Name"] ∧
      tNE.cell 0 "Title Name" = some "Amélie" ∧
      ∃ ch ∈ "Amélie".data, 127 < ch.toNat) ∧
    ((⟨2, "Title Name", "Amélie", findNonEnglish "Amélie"⟩ : NEViol) ∈
        flask_non_english tNE ∧
      (flask_non_english tNE).countP
        (fun e => e.row == 2 && e.column == "Title Name") = 1) :=
  ⟨⟨by decide, by decide, by decide, by decide, by decide, by decide⟩,
   c7_non_english_rule tNE 0 "Title Name" "Amélie" (by decide) (by decide)
     (by decide) (by decide) (by decide) (by decide)⟩

/-- C10 counterexample: app1.py's validation mutates the input table — on a
table whose Rating Date is absent (all looked-up columns present, no
`NaN` Countries/Languages), line 65's `astype(str)` overwrite leaves the
table different from the input when `validate_file` returns its report. -/
theorem c10_counterexample :
    (app1_validate_file tMut).1 ≠ tMut ∧
    (app1_validate_file tMut).2.isOk = true := by
  exact ⟨by decide, by decide⟩

/-- C10 amended: when app1.py's validation runs to completion and returns
its report, it has mutated exactly the Rating Date column of the
(rectangular) input table — the column schema and every cell outside
"Rating Date" are unchanged, while each Rating Date cell is overwritten
with its string rendering (`NaN` becomes `"nan"`); when the run instead
escapes with an exception (KeyError/TypeError before line 65), the table
is unchanged. -/
theorem c10_mutation (t : Table)
    (halign : ∀ r ∈ t.rows, r.length = t.columns.length) :
    (∀ rep, (app1_validate_file t).2 = Except.ok rep →
      (app1_validate_file t).1.columns = t.columns ∧
      (∀ i, ∀ c, c ≠ "Rating Date" →
        (app1_validate_file t).1.cell i c = t.cell i c) ∧
      (∀ i, i < t.rows.length →
        (app1_validate_file t).1.cell i "Rating Date" =
          some (pyStr (t.cell i "Rating Date")))) ∧
    (∀ e, (app1_validate_file t).2 = Except.error e →
      (app1_validate_file t).1 = t) := by
  cases habort : app1Abort t with
  | some e =>
    have hv : app1_validate_file t = (t, Except.error e) := by
      rw [app1_validate_file, habort]
    rw [hv]
    constructor
    · intro rep hok
      exact absurd hok (by simp)
    · intro e2 _
      rfl
  | none =>
    have hv1 : (app1_validate_file t).1 = astypeStrRatingDate t := by
      rw [app1_validate_file, habort]
    have hv2 : ∃ rep, (app1_validate_file t).2 = Except.ok rep := by
      rw [app1_validate_file, habort]
      exact ⟨_, rfl⟩
    obtain ⟨spec1, spec2, spec3⟩ := astypeRatingDate_spec t halign
    have hmem : "Rating Date" ∈ t.columns :=
      (contains_eq_true_iff_mem t.columns "Rating Date").mp
        (app1Abort_none_ratingDate t habort)
    constructor
    · intro rep _
      refine ⟨by rw [hv1]; exact spec1,
        fun i c hc => by rw [hv1]; exact spec2 i c hc,
        fun i hi => by rw [hv1]; exact spec3 i hi hmem⟩
    · intro e he
      obtain ⟨rep, hrep⟩ := hv2
      rw [he] at hrep
      exact absurd hrep (by simp)

/-- Witness for C10's amended statement at the counterexample table. -/
theorem c10_mutation_witness :
    (∀ r ∈ tMut.rows, r.length = tMut.columns.length) ∧
    ((∀ rep, (app1_validate_file tMut).2 = Except.ok rep →
      (app1_validate_file tMut).1.columns = tMut.columns ∧
      (∀ i, ∀ c, c ≠ "Rating Date" →
        (app1_validate_file tMut).1.cell i c = tMut.cell i c) ∧
      (∀ i, i < tMut.rows.length →
        (app1_validate_file tMut).1.cell i "Rating Date" =
          some (pyStr (tMut.cell i "Rating Date")))) ∧
     (∀ e, (app1_validate_file tMut).2 = Except.error e →
       (app1_validate_file tMut).1 = tMut)) :=
  ⟨by decide, c10_mutation tMut (by decide)⟩

end ExcelVal
